import Mathlib

set_option autoImplicit false

/-!
Verification of the shellai CLI core against its specification.

The TypeScript source is shallowly embedded: pure string manipulation
becomes Lean functions on `String` / `List Char`; the interactive and
effectful parts (process spawning, provider transports, the prompts UI,
the on-disk credential store) become explicit parameters and state, so
that each claim about the program can be stated and settled as a
theorem.  Definitions come first, then the theorems.
-/

namespace ShellAI

/-! ## JavaScript string helpers

`command.replace(/\s+/g, " ").trim()` is the whitespace normalization the
lifecycle controller applies to every streamed reply; `text.trim()` alone
is applied to script bodies.  We embed JS whitespace (`\s`) for the ASCII
range together with the NBSP character, which covers every string the
program manipulates.
-/

/-- JS `\s` (ASCII range plus NBSP). -/
def jsSpace (c : Char) : Bool :=
  c = ' ' || c = '\t' || c = '\n' || c = '\r' || c = '\x0b' || c = '\x0c' || c = '\xa0'

/-- `replace(/\s+/g, " ")` on a character list: every maximal run of
whitespace becomes a single space.  The boolean records whether the
previous character was part of a whitespace run. -/
def collapseGo : Bool → List Char → List Char
  | _, [] => []
  | prevWs, c :: cs =>
    if jsSpace c then
      if prevWs then collapseGo true cs else ' ' :: collapseGo true cs
    else
      c :: collapseGo false cs

/-- `replace(/\s+/g, " ")`. -/
def collapseWS (l : List Char) : List Char := collapseGo false l

/-- `String.prototype.trim` on a character list. -/
def jsTrimList (l : List Char) : List Char :=
  ((l.dropWhile jsSpace).reverse.dropWhile jsSpace).reverse

/-- `text.trim()`. -/
def jsTrim (s : String) : String := ⟨jsTrimList s.data⟩

/-- `command.replace(/\s+/g, " ").trim()` — the normalization applied to
every AI reply that is treated as a command. -/
def normalizeWS (s : String) : String := ⟨jsTrimList (collapseWS s.data)⟩

/-- Occurrences of `'!'` in a character list.  Normalization only ever
touches whitespace, so this count is invariant under it; that invariant
feeds the retry-bound witnesses below. -/
def countBang : List Char → Nat
  | [] => 0
  | c :: cs => (if c = '!' then 1 else 0) + countBang cs

/-! ## Command Lifecycle Controller (`executeCommand`, src/unnamed/part_003)

`executeCommand(command, service, attempts, options)` spawns the command,
and on failure either gives up (`attempts >= maxAttempts - 1`), or asks
the Provider Client for a correction, short-circuits when the normalized
correction equals the failed command, and otherwise asks the user to
confirm before recursing with `attempts + 1`.

The external collaborators (Executor, Provider Client, the confirm
prompt) are injected as an `Env`; each is given the current `attempts`
value so that mocks can vary per attempt.  The recursion is expressed
structurally on `fuel = maxAttempts - 1 - attempts` (the number of
retries still allowed): the source's `attempts >= maxAttempts - 1` guard
is exactly `fuel = 0`.

The run is observed through a `Trace`: how many times the Executor was
launched, how many correction requests went to the Provider Client, how
many confirmation prompts were shown, and the error of each failed
launch in order.
-/

/-- `maxAttempts = 3` in `executeCommand`. -/
def maxAttempts : Nat := 3

/-- Mocked collaborators of `executeCommand`.  `exec n c = none` means the
spawned process exited 0; `some e` is the failure error (stderr or exit
message).  `ai n c e` is the raw streamed correction reply; `confirm n c`
is the user's answer to "Would you like to try this command?". -/
structure Env where
  exec : Nat → String → Option String
  ai : Nat → String → String → String
  confirm : Nat → String → Bool

/-- Observable events of one `executeCommand` session. -/
structure Trace where
  launches : Nat
  aiRequests : Nat
  confirms : Nat
  errors : List String
  deriving Repr, DecidableEq

/-- Terminal result of `executeCommand`: normal return, or the error it
throws. -/
inductive Outcome where
  | success
  | failed (err : String)
  deriving Repr, DecidableEq

/-- Body of `executeCommand` with the remaining-retries budget made
structural: `fuel = maxAttempts - 1 - attempts`. -/
def execGo (env : Env) : Nat → Nat → String → Trace × Outcome
  | fuel, attempts, command =>
    match env.exec attempts command with
    | none => (⟨1, 0, 0, []⟩, Outcome.success)
    | some err =>
      match fuel with
      | 0 =>
        -- `attempts >= maxAttempts - 1`: give up, rethrow this error
        (⟨1, 0, 0, [err]⟩, Outcome.failed err)
      | fuel' + 1 =>
        let corrected := normalizeWS (env.ai attempts command err)
        if corrected = command then
          (⟨1, 1, 0, [err]⟩, Outcome.failed "AI couldn\x27t find a better solution")
        else if env.confirm attempts corrected then
          let r := execGo env fuel' (attempts + 1) corrected
          (⟨1 + r.1.launches, 1 + r.1.aiRequests, 1 + r.1.confirms, err :: r.1.errors⟩, r.2)
        else
          (⟨1, 1, 1, [err]⟩, Outcome.failed "User cancelled retry")

/-- `executeCommand(command, service, 0, options)`: the entry point used
by every generator, starting at `attempts = 0`. -/
def executeCommand (env : Env) (command : String) : Trace × Outcome :=
  execGo env (maxAttempts - 1) 0 command

/-- Error text of the n-th mocked launch, used by concrete environments
below. -/
def errOf : Nat → String
  | 0 => "E0"
  | 1 => "E1"
  | _ => "E2"

/-- Mock environment: the Executor always fails (same error every time),
the Provider Client always suggests the failed command with `'!'`
appended (a genuinely different string), the user always accepts. -/
def alwaysFailEnv : Env where
  exec := fun _ _ => some "boom"
  ai := fun _ c _ => c.push '!'
  confirm := fun _ _ => true

/-- Mock environment whose per-attempt errors differ, to observe which
error is surfaced after the attempts are exhausted. -/
def distinctErrEnv : Env where
  exec := fun n _ => some (errOf n)
  ai := fun _ c _ => c.push '!'
  confirm := fun _ _ => true

/-- Mock environment whose "correction" is the failed command verbatim. -/
def echoEnv : Env where
  exec := fun _ _ => some "err"
  ai := fun _ c _ => c
  confirm := fun _ _ => false

/-! ## A small JS regex semantics

`validateCommand` (src/unnamed/part_001) tests the command against nine
JS regular expressions.  We embed exactly the constructs those patterns
use: character classes, `.`, `*`, `+`, alternation, the anchors `^` and
`$`, and the word boundary `\b`.  `reTest` is the semantics of JS
`RegExp.prototype.test`: does any substring match?  The matcher is a
backtracking search in continuation style; it threads the previous
character so that `\b` can be decided, and carries fuel bounding the
recursion depth (each recursive call consumes one unit; `reTest` passes
far more fuel than a match over the given string can consume, so the
fuel never runs out on the strings the theorems evaluate). -/

/-- Regular-expression syntax: `eps` the empty word, `cls p` one
character satisfying `p`, concatenation, alternation, Kleene star, the
word boundary `\b`, begin `^` and end `$` of input. -/
inductive RE where
  | eps
  | cls (p : Char → Bool)
  | seq (a b : RE)
  | alt (a b : RE)
  | star (a : RE)
  | wb
  | bos
  | eos

/-- JS `\w`: `[A-Za-z0-9_]`. -/
def wordChar (c : Char) : Bool := c.isAlpha || c.isDigit || c = '_'

/-- Is the position between `prev` and the head of `rest` a JS word
boundary (`\b`)?  True when exactly one side is a word character (edges
of the input count as non-word). -/
def isBoundary (prev : Option Char) (rest : List Char) : Bool :=
  let pw := match prev with | some c => wordChar c | none => false
  let nw := match rest with | c :: _ => wordChar c | [] => false
  pw != nw

/-- Backtracking matcher.  `reMatch fuel r prev s k` holds when some
prefix of `s` matches `r` and the continuation `k` accepts the rest
(with the previous character updated).  A `star` iteration must consume
at least one character, which is how JS avoids repeating empty matches. -/
def reMatch : Nat → RE → Option Char → List Char → (Option Char → List Char → Bool) → Bool
  | 0, _, _, _, _ => false
  | _ + 1, RE.eps, prev, s, k => k prev s
  | _ + 1, RE.cls p, _, s, k =>
    match s with
    | [] => false
    | c :: rest => p c && k (some c) rest
  | fuel + 1, RE.seq a b, prev, s, k =>
    reMatch fuel a prev s (fun p2 s2 => reMatch fuel b p2 s2 k)
  | fuel + 1, RE.alt a b, prev, s, k =>
    reMatch fuel a prev s k || reMatch fuel b prev s k
  | fuel + 1, RE.star a, prev, s, k =>
    k prev s ||
      reMatch fuel a prev s (fun p2 s2 =>
        if s2.length < s.length then reMatch fuel (RE.star a) p2 s2 k else false)
  | _ + 1, RE.wb, prev, s, k => isBoundary prev s && k prev s
  | _ + 1, RE.bos, prev, s, k => (match prev with | none => true | some _ => false) && k prev s
  | _ + 1, RE.eos, prev, s, k => (match s with | [] => true | _ :: _ => false) && k prev s

/-- Try a match starting at every position (the unanchored search of
`RegExp.prototype.test`). -/
def reTestAux (fuel : Nat) (r : RE) : Option Char → List Char → Bool
  | prev, s =>
    reMatch fuel r prev s (fun _ _ => true) ||
      match s with
      | [] => false
      | c :: rest => reTestAux fuel r (some c) rest

/-- JS `pattern.test(s)`. -/
def reTest (r : RE) (s : String) : Bool :=
  reTestAux (s.length * 100 + 1000) r none s.data

/-- A single literal character. -/
def lit (c : Char) : RE := RE.cls (fun x => x = c)

/-- A literal character sequence. -/
def rstrList : List Char → RE
  | [] => RE.eps
  | c :: cs => RE.seq (lit c) (rstrList cs)

/-- A literal string. -/
def rstr (s : String) : RE := rstrList s.data

/-- Concatenation of a pattern list. -/
def reSeq (l : List RE) : RE := l.foldr RE.seq RE.eps

/-- JS `.`: any character except a line terminator. -/
def anyC : RE :=
  RE.cls (fun c => !(c = '\n' || c = '\r' || c.toNat = 0x2028 || c.toNat = 0x2029))

/-- `.*`. -/
def dotStar : RE := RE.star anyC

/-- `\s`. -/
def wsC : RE := RE.cls jsSpace

/-- `\w`. -/
def wC : RE := RE.cls wordChar

/-- `\d`. -/
def dC : RE := RE.cls Char.isDigit

/-- `r+`. -/
def rplus (r : RE) : RE := RE.seq r (RE.star r)

/-- A character set `[...]`. -/
def oneOf (l : List Char) : RE := RE.cls (fun c => l.contains c)

/-! ### `validateCommand` (src/unnamed/part_001, lines 129-164) -/

/-- The four `syntaxErrors` patterns of `validateCommand`:
`/[&|;><]\s*$/`, `/\b\w+\s*=\s*$/`, `/^[\s|&;><!]/`, `/\(\s*\)/`. -/
def syntaxErrorPatterns : List RE :=
  [ reSeq [oneOf ['&', '|', ';', '>', '<'], RE.star wsC, RE.eos],
    reSeq [RE.wb, rplus wC, RE.star wsC, lit '=', RE.star wsC, RE.eos],
    reSeq [RE.bos, RE.cls (fun c => jsSpace c || ['|', '&', ';', '>', '<', '!'].contains c)],
    reSeq [lit '(', RE.star wsC, lit ')'] ]

/-- The five `blockedCommands` patterns of `validateCommand`:
`/\bsudo\b.*rm\b.*-rf\b.*\/\b/`, `/\bmv\b.*\/\b.*\/dev\/null\b/`,
`/\bdd\b.*of=\/dev\/([hs]d[a-z]|nvme\d+n\d+)/`, `/\bmkfs\b.*-f\b/`,
`/\bshred\b.*-[uz]\b/`. -/
def blockedCommandPatterns : List RE :=
  [ reSeq [RE.wb, rstr "sudo", RE.wb, dotStar, rstr "rm", RE.wb, dotStar,
      rstr "-rf", RE.wb, dotStar, lit '/', RE.wb],
    reSeq [RE.wb, rstr "mv", RE.wb, dotStar, lit '/', RE.wb, dotStar,
      rstr "/dev/null", RE.wb],
    reSeq [RE.wb, rstr "dd", RE.wb, dotStar, rstr "of=/dev/",
      RE.alt
        (reSeq [oneOf ['h', 's'], lit 'd', RE.cls (fun c => 97 ≤ c.toNat && c.toNat ≤ 122)])
        (reSeq [rstr "nvme", rplus dC, lit 'n', rplus dC])],
    reSeq [RE.wb, rstr "mkfs", RE.wb, dotStar, rstr "-f", RE.wb],
    reSeq [RE.wb, rstr "shred", RE.wb, dotStar, lit '-', oneOf ['u', 'z'], RE.wb] ]

/-- `validateCommand`: false when any syntax-error pattern matches, then
false when any blocked-command pattern matches, else true. -/
def validateCommand (command : String) : Bool :=
  if syntaxErrorPatterns.any (fun p => reTest p command) then false
  else if blockedCommandPatterns.any (fun p => reTest p command) then false
  else true

/-! ### `generateCommand`'s review loop (src/unnamed/part_001, lines 243-284)

After the command is generated, `generateCommand` loops on
`confirmCommand`; `execute` spawns `$SHELL -c command` directly, `copy`
and `cancel` return, `edit` replaces the command and loops.  Nothing in
this loop (nor anywhere else in the program) calls `validateCommand`.
The user's successive menu choices are a script of `UserAction`s; the
returned `List String` records every command string handed to the
Executor (the `spawn` call).  The prompt-side input validation of
`editCommand` is UI plumbing and is not modelled. -/

inductive UserAction where
  | execute
  | copy
  | cancel
  | edit (newCmd : String)

/-- Result of the review loop. -/
inductive GenOutcome where
  | succeeded
  | execFailed
  | copied
  | cancelled
  | pending
  deriving Repr, DecidableEq

/-- The review loop of `generateCommand`; `exec c = true` models the
spawned process exiting 0. -/
def runGen (exec : String → Bool) : String → List UserAction → List String × GenOutcome
  | _, [] => ([], GenOutcome.pending)
  | cmd, a :: rest =>
    match a with
    | UserAction.execute => ([cmd], if exec cmd then GenOutcome.succeeded else GenOutcome.execFailed)
    | UserAction.copy => ([], GenOutcome.copied)
    | UserAction.cancel => ([], GenOutcome.cancelled)
    | UserAction.edit newCmd => runGen exec newCmd rest

/-! ## Script generation (src/src/commands/gen-script.ts)

`generateScript` trims the streamed reply and splices it into the
per-kind template with
`script.replace("# Script content here", content)` — a JS string-pattern
`replace`, which substitutes only the *first* occurrence of the literal
search string.  The templates are transcribed byte for byte (the `\n`
and `\t` inside the bash template's `IFS=$'...'` are escape sequences of
the TS template literal, hence real newline/tab characters). -/

/-- `options.type` of `generateScript`. -/
inductive ScriptType where
  | bash
  | python
  | node
  deriving Repr, DecidableEq

/-- `SCRIPT_TEMPLATES` (gen-script.ts lines 26-53). -/
def scriptTemplate : ScriptType → String
  | ScriptType.bash =>
      "#!/bin/bash\nset -euo pipefail\nIFS=$\x27\n\t\x27\n\n# Script content here\n"
  | ScriptType.python =>
      "#!/usr/bin/env python3\n\nimport sys\nimport os\n\ndef main():\n    # Script content here\n    pass\n\nif __name__ == \"__main__\":\n    main()\n"
  | ScriptType.node =>
      "#!/usr/bin/env node\n\nasync function main() \x7b\n    // Script content here\n\x7d\n\nmain().catch(console.error);\n"

/-- JS `s.replace(pat, repl)` with a string pattern: replace the first
occurrence of `pat`, or return `s` unchanged when `pat` does not occur. -/
def replaceFirstAux (pat repl : List Char) : List Char → List Char
  | [] => if pat.isPrefixOf ([] : List Char) then repl else []
  | c :: rest =>
    if pat.isPrefixOf (c :: rest) then repl ++ (c :: rest).drop pat.length
    else c :: replaceFirstAux pat repl rest

/-- JS `s.replace(pat, repl)` on strings. -/
def replaceFirst (s pat repl : String) : String :=
  ⟨replaceFirstAux pat.data repl.data s.data⟩

/-- Does `pat` occur as a contiguous substring of `s`? -/
def containsSubstrAux (pat : List Char) : List Char → Bool
  | [] => pat.isPrefixOf ([] : List Char)
  | c :: rest => pat.isPrefixOf (c :: rest) || containsSubstrAux pat rest

/-- Does `pat` occur as a contiguous substring of `s`? -/
def containsSubstr (s pat : String) : Bool := containsSubstrAux pat.data s.data

/-- The script artifact `generateScript` builds from the streamed reply
(gen-script.ts lines 141-145): trim, then splice into the template at the
literal search string `"# Script content here"`. -/
def generateScriptArtifact (t : ScriptType) (content : String) : String :=
  replaceFirst (scriptTemplate t) "# Script content here" (jsTrim content)

/-! ## Secret Vault (`CredentialsManager`, src/src/utils/provider-service.ts
second document = utils/credentials.ts)

`saveCredentials` re-reads the store, overwrites the provider's record
with `{ iv, encrypted }` produced by `encrypt` (AES-256-CBC under the
fixed scrypt-derived master key, fresh random IV) and writes the store
back; `getCredentials` re-reads, returns `undefined` when no record
exists, and otherwise decrypts — a decrypt failure (`decipher.final`
throwing on a wrong key or corrupted IV/ciphertext) is *not* caught and
propagates to the caller.  `readCredentialsData` returns an empty store
when the file is missing or unparsable.

The Node `crypto` primitives are external library code; they are
modelled at their interface as a `CryptoBackend` whose round-trip
contract (`dec (enc iv t) iv = some t`, the documented behaviour of
AES-256-CBC under one fixed key) is a hypothesis of the round-trip
theorem.  The fresh random IV is externalized as a parameter.  The store
plumbing itself — which record is written, which iv is paired with which
ciphertext, what each failure returns — is the code under verification.
-/

/-- The closed provider set. -/
inductive Provider where
  | anthropic
  | openai
  | gemini
  deriving Repr, DecidableEq

/-- One persisted credential record `{ iv, encrypted }` (hex strings). -/
structure EncRecord where
  iv : String
  encrypted : String
  deriving Repr, DecidableEq

/-- The Node `crypto` AES-256-CBC pair under the process-wide master key:
`enc iv plaintext` is the hex ciphertext, `dec encrypted iv` is the
recovered plaintext or `none` when `decipher.final` throws. -/
structure CryptoBackend where
  enc : String → String → String
  dec : String → String → Option String

/-- The `credentials` mapping of the store file. -/
def CredentialsData := Provider → Option EncRecord

/-- The on-disk credentials file: missing, present but unparsable, or a
parsed store. -/
inductive VaultFile where
  | absent
  | corrupt
  | valid (d : CredentialsData)

/-- `readCredentialsData`: missing or unparsable file yields the empty
store. -/
def readCredentialsData : VaultFile → CredentialsData
  | VaultFile.valid d => d
  | _ => fun _ => none

/-- `saveCredentials(provider, apiKey)`: read, overwrite the provider's
record wholesale with a fresh `{ iv, encrypted }`, write back. -/
def saveCredentials (B : CryptoBackend) (iv : String) (fs : VaultFile)
    (p : Provider) (apiKey : String) : VaultFile :=
  let d := readCredentialsData fs
  VaultFile.valid (fun q => if q = p then some ⟨iv, B.enc iv apiKey⟩ else d q)

/-- `getCredentials(provider)`: `ok none` when no record exists,
`ok (some key)` on successful decrypt, `error` when decrypt throws. -/
def getCredentials (B : CryptoBackend) (fs : VaultFile) (p : Provider) :
    Except String (Option String) :=
  match readCredentialsData fs p with
  | none => Except.ok none
  | some r =>
    match B.dec r.encrypted r.iv with
    | some k => Except.ok (some k)
    | none => Except.error "vault decrypt error"

/-- A concrete backend satisfying the cipher round-trip contract. -/
def idBackend : CryptoBackend where
  enc := fun _ t => t
  dec := fun c _ => some c

/-- A concrete backend whose decrypt always throws (wrong key /
corrupted record). -/
def failBackend : CryptoBackend where
  enc := fun _ t => t
  dec := fun _ _ => none

/-- A store holding one (undecryptable) record for openai. -/
def storedOpenai : CredentialsData :=
  fun q => if q = Provider.openai then some ⟨"aa", "bb"⟩ else none

/-! ## Provider Client (`ProviderService`, src/src/utils/provider-service.ts)

`ProviderService` is constructed with `(provider, apiKey, model)`;
`initializeClient` switches on the provider and creates exactly one
client (none for a value outside the closed set — the switch has no
default).  `streamChat` switches on the provider again, adapts the
conversation to that provider's wire shape, and yields text fragments
from the transport's delta events:
  - anthropic: only chunks with `type === "content_block_delta"` and
    `delta.type === "text_delta"` yield `delta.text`;
  - openai: yield `chunk.choices[0]?.delta?.content` when truthy (so an
    empty string is *not* yielded);
  - gemini: yield `chunk.text()` when non-empty; the conversation is
    adapted to the two-role user/model scheme (`adaptGemini`).
A provider value outside the closed set falls through both switches: no
client is created and the generator completes without yielding.

The remote transports are external; they are modelled as functions from
the request each branch builds to the chunk list it streams back.
`streamChat`'s result is the finite fragment list (`Except.ok`) or the
configuration error thrown before streaming. -/

/-- `Message.role` (src/src/utils/types.ts usage). -/
inductive Role where
  | user
  | assistant
  | system
  deriving Repr, DecidableEq

/-- A `ChatMessage`. -/
structure Message where
  role : Role
  content : String
  deriving Repr, DecidableEq

/-- Anthropic wire roles: `msg.role === "user" ? "user" : "assistant"`. -/
inductive AnthRole where
  | user
  | assistant
  deriving Repr, DecidableEq

/-- One message of an Anthropic request. -/
structure AnthMsg where
  role : AnthRole
  content : String
  deriving Repr, DecidableEq

/-- An Anthropic `messages.create` request. -/
structure AnthRequest where
  model : String
  messages : List AnthMsg
  maxTokens : Nat
  deriving Repr, DecidableEq

/-- `chunk.delta` of an Anthropic stream event. -/
inductive AnthDelta where
  | textDelta (text : String)
  | inputJsonDelta (partialJson : String)
  deriving Repr, DecidableEq

/-- One Anthropic stream event (`chunk.type`). -/
inductive AnthChunk where
  | messageStart
  | contentBlockStart
  | contentBlockDelta (delta : AnthDelta)
  | contentBlockStop
  | messageDelta
  | messageStop
  deriving Repr, DecidableEq

/-- One message of an OpenAI request (role passed through unchanged). -/
structure OAIMsg where
  role : Role
  content : String
  deriving Repr, DecidableEq

/-- An OpenAI `chat.completions.create` request. -/
structure OAIRequest where
  model : String
  messages : List OAIMsg
  deriving Repr, DecidableEq

/-- `choice.delta` of an OpenAI stream chunk. -/
structure OAIDelta where
  content : Option String
  deriving Repr, DecidableEq

/-- One element of `chunk.choices`. -/
structure OAIChoice where
  delta : Option OAIDelta
  deriving Repr, DecidableEq

/-- One OpenAI stream chunk. -/
structure OAIChunk where
  choices : List OAIChoice
  deriving Repr, DecidableEq

/-- Gemini wire roles: `msg.role === "user" ? "user" : "model"`. -/
inductive GRole where
  | user
  | model
  deriving Repr, DecidableEq

/-- One entry of a Gemini `contents` array; `parts` is the list of
`{ text }` parts. -/
structure GContent where
  role : GRole
  parts : List String
  deriving Repr, DecidableEq

/-- A Gemini `generateContentStream` request. -/
structure GemRequest where
  contents : List GContent
  deriving Repr, DecidableEq

/-- One Gemini stream chunk, observed through its `.text()` accessor. -/
structure GemChunk where
  text : String
  deriving Repr, DecidableEq

/-- The anthropic message adaptation of `streamChat` (lines 42-45). -/
def anthAdapt (msgs : List Message) : List AnthMsg :=
  msgs.map fun m =>
    ⟨if m.role = Role.user then AnthRole.user else AnthRole.assistant, m.content⟩

/-- The openai message adaptation of `streamChat` (lines 66-69): roles
pass through unchanged. -/
def openaiAdapt (msgs : List Message) : List OAIMsg :=
  msgs.map fun m => ⟨m.role, m.content⟩

/-- The gemini conversation adaptation of `streamChat` (lines 89-92):
every message — the system message included — is folded into the
two-role user/model scheme with its content as the single part. -/
def adaptGemini (msgs : List Message) : List GContent :=
  msgs.map fun m =>
    ⟨if m.role = Role.user then GRole.user else GRole.model, [m.content]⟩

/-- The fragment an anthropic chunk contributes (lines 50-57): only a
`content_block_delta` carrying a `text_delta`. -/
def anthPayload : AnthChunk → Option String
  | AnthChunk.contentBlockDelta (AnthDelta.textDelta t) => some t
  | _ => none

/-- The fragment an openai chunk contributes (lines 73-77):
`chunk.choices[0]?.delta?.content` when truthy. -/
def openaiPayload (c : OAIChunk) : Option String :=
  match c.choices.head? with
  | some ch =>
    match ch.delta with
    | some d =>
      match d.content with
      | some s => if s = "" then none else some s
      | none => none
    | none => none
  | none => none

/-- The fragment a gemini chunk contributes (lines 99-104): `chunk.text()`
when non-empty. -/
def geminiPayload (c : GemChunk) : Option String :=
  if c.text = "" then none else some c.text

/-- The fragments the anthropic branch yields, in stream order. -/
def anthropicFragments (chunks : List AnthChunk) : List String :=
  chunks.filterMap anthPayload

/-- The fragments the openai branch yields, in stream order. -/
def openaiFragments (chunks : List OAIChunk) : List String :=
  chunks.filterMap openaiPayload

/-- The fragments the gemini branch yields, in stream order. -/
def geminiFragments (chunks : List GemChunk) : List String :=
  chunks.filterMap geminiPayload

/-- The three remote transports, as functions from the request each
branch builds to the chunk list streamed back. -/
structure Transport where
  anthropic : AnthRequest → List AnthChunk
  openai : OAIRequest → List OAIChunk
  gemini : GemRequest → List GemChunk

/-- A `ProviderService` instance after construction.  The provider is a
`String` because the CLI casts unchecked user input into the `Provider`
union type.  Each client field records the apiKey it was constructed
with, `none` when `initializeClient`'s switch did not create it. -/
structure Service where
  provider : String
  apiKey : String
  model : String
  anthropicClient : Option String
  openaiClient : Option String
  geminiClient : Option String

/-- `new ProviderService(provider, apiKey, model)`: the constructor runs
`initializeClient`, whose switch creates exactly the matching client and
nothing for an unknown provider. -/
def mkService (provider apiKey model : String) : Service where
  provider := provider
  apiKey := apiKey
  model := model
  anthropicClient := if provider = "anthropic" then some apiKey else none
  openaiClient := if provider = "openai" then some apiKey else none
  geminiClient := if provider = "gemini" then some apiKey else none

/-- `streamChat(messages)` (lines 34-113): switch on the provider,
fail with a configuration error when the matching client was never
created, otherwise adapt the conversation, call the transport and yield
the branch's fragments.  An unknown provider falls through the switch:
the generator completes with no fragments and no error. -/
def streamChat (svc : Service) (tr : Transport) (messages : List Message) :
    Except String (List String) :=
  if svc.provider = "anthropic" then
    match svc.anthropicClient with
    | none => Except.error "Anthropic client not initialized"
    | some _ =>
      Except.ok (anthropicFragments (tr.anthropic ⟨svc.model, anthAdapt messages, 4096⟩))
  else if svc.provider = "openai" then
    match svc.openaiClient with
    | none => Except.error "OpenAI client not initialized"
    | some _ =>
      Except.ok (openaiFragments (tr.openai ⟨svc.model, openaiAdapt messages⟩))
  else if svc.provider = "gemini" then
    match svc.geminiClient with
    | none => Except.error "Gemini client not initialized"
    | some _ =>
      Except.ok (geminiFragments (tr.gemini ⟨adaptGemini messages⟩))
  else
    Except.ok []

/-- A mock anthropic stream for a reply split into `frags`: metadata
events around one `text_delta` per fragment. -/
def anthMock (frags : List String) : List AnthChunk :=
  [AnthChunk.messageStart, AnthChunk.contentBlockStart] ++
    frags.map (fun t => AnthChunk.contentBlockDelta (AnthDelta.textDelta t)) ++
    [AnthChunk.contentBlockStop, AnthChunk.messageStop]

/-- A mock openai stream: one content delta per fragment, then the final
chunk whose delta has no content. -/
def openaiMock (frags : List String) : List OAIChunk :=
  frags.map (fun t => { choices := [{ delta := some { content := some t } }] }) ++
    [{ choices := [{ delta := some { content := none } }] }]

/-- A mock gemini stream: one chunk per fragment. -/
def geminiMock (frags : List String) : List GemChunk :=
  frags.map (fun t => { text := t })

/-- The fixed mock transport emitting the reply `frags` in each
provider's envelope shape. -/
def mockTransport (frags : List String) : Transport where
  anthropic := fun _ => anthMock frags
  openai := fun _ => openaiMock frags
  gemini := fun _ => geminiMock frags

/-- A two-message conversation opening with a system instruction. -/
def sysConvo : List Message :=
  [⟨Role.system, "You are a shell command expert"⟩, ⟨Role.user, "list files"⟩]

/-! ## Theorems -/

theorem countBang_append (l m : List Char) :
    countBang (l ++ m) = countBang l + countBang m := by
  induction l with
  | nil => simp [countBang]
  | cons c cs ih => simp [countBang, ih]; omega

theorem countBang_collapseGo (b : Bool) (l : List Char) :
    countBang (collapseGo b l) = countBang l := by
  induction l generalizing b with
  | nil => rfl
  | cons c cs ih =>
    by_cases hc : jsSpace c
    · have hcne : c ≠ '!' := by
        intro h; subst h; simp [jsSpace] at hc
      cases b <;> simp [collapseGo, hc, countBang, hcne, ih]
    · simp [collapseGo, hc, countBang, ih]

theorem countBang_dropWhile (l : List Char) :
    countBang (l.dropWhile jsSpace) = countBang l := by
  induction l with
  | nil => rfl
  | cons c cs ih =>
    by_cases hc : jsSpace c
    · have hcne : c ≠ '!' := by
        intro h; subst h; simp [jsSpace] at hc
      simp [List.dropWhile, hc, countBang, hcne, ih]
    · simp [List.dropWhile, hc]

theorem countBang_reverse (l : List Char) :
    countBang l.reverse = countBang l := by
  induction l with
  | nil => rfl
  | cons c cs ih => simp [List.reverse_cons, countBang_append, ih, countBang]; omega

theorem countBang_normalizeWS (s : String) :
    countBang (normalizeWS s).data = countBang s.data := by
  simp [normalizeWS, jsTrimList, collapseWS, countBang_reverse, countBang_dropWhile,
    countBang_collapseGo]

/-- Appending `'!'` always changes a string, even up to the controller's
whitespace normalization: the number of `'!'` characters grows by one
while normalization preserves it. -/
theorem normalizeWS_push_bang_ne (s : String) : normalizeWS (s.push '!') ≠ s := by
  intro h
  have hcount : countBang (normalizeWS (s.push '!')).data = countBang s.data := by
    rw [h]
  rw [countBang_normalizeWS] at hcount
  have hpush : (s.push '!').data = s.data ++ ['!'] := rfl
  rw [hpush, countBang_append] at hcount
  simp [countBang] at hcount

/-- When the Executor fails every launch, the correction is always a new
string and the user always accepts, a session starting with `fuel`
retries left performs exactly `fuel + 1` launches, `fuel` correction
requests and `fuel` confirmations, ends `failed`, surfaces the error of
the *last* launch, and its first recorded error is the first launch's
error. -/
theorem execGo_all_fail (env : Env)
    (h1 : ∀ n c, env.exec n c ≠ none)
    (h2 : ∀ n c e, normalizeWS (env.ai n c e) ≠ c)
    (h3 : ∀ n c, env.confirm n c = true) :
    ∀ fuel attempts command, ∃ errs e,
      execGo env fuel attempts command = (⟨fuel + 1, fuel, fuel, errs⟩, Outcome.failed e) ∧
      errs.getLast? = some e ∧
      errs.head? = env.exec attempts command := by
  intro fuel
  induction fuel with
  | zero =>
    intro attempts command
    cases hx : env.exec attempts command with
    | none => exact absurd hx (h1 attempts command)
    | some e =>
      exact ⟨[e], e, by simp [execGo, hx], rfl, by simp [hx]⟩
  | succ fuel ih =>
    intro attempts command
    cases hx : env.exec attempts command with
    | none => exact absurd hx (h1 attempts command)
    | some e =>
      obtain ⟨errs', e', hrun, hlast, hhead⟩ :=
        ih (attempts + 1) (normalizeWS (env.ai attempts command e))
      refine ⟨e :: errs', e', ?_, ?_, by simp [hx]⟩
      · simp only [execGo, hx, if_neg (h2 attempts command e),
          h3 attempts (normalizeWS (env.ai attempts command e)), if_true, hrun]
        simp [Nat.add_comm]
      · cases herr : errs' with
        | nil =>
          rw [herr] at hhead
          cases hx2 : env.exec (attempts + 1) (normalizeWS (env.ai attempts command e)) with
          | none => exact absurd hx2 (h1 _ _)
          | some _ => rw [hx2] at hhead; simp at hhead
        | cons x xs =>
          rw [herr] at hlast
          rw [List.getLast?_cons_cons, hlast]

/-- C2: when the Executor fails on every attempt, the Provider Client
returns a different corrected string each time and the user accepts every
suggested correction, `executeCommand` started at `attempts = 0` launches
the command exactly `maxAttempts = 3` times and then reports Failed. -/
theorem retry_bound_three_launches (env : Env) (cmd : String)
    (h1 : ∀ n c, env.exec n c ≠ none)
    (h2 : ∀ n c e, normalizeWS (env.ai n c e) ≠ c)
    (h3 : ∀ n c, env.confirm n c = true) :
    (executeCommand env cmd).1.launches = 3 ∧
    ∃ e, (executeCommand env cmd).2 = Outcome.failed e := by
  obtain ⟨errs, e, hrun, -, -⟩ := execGo_all_fail env h1 h2 h3 (maxAttempts - 1) 0 cmd
  rw [executeCommand, hrun]
  exact ⟨rfl, e, rfl⟩

theorem retry_bound_three_launches_witness :
    (executeCommand alwaysFailEnv "ls").1.launches = 3 ∧
    ∃ e, (executeCommand alwaysFailEnv "ls").2 = Outcome.failed e :=
  retry_bound_three_launches alwaysFailEnv "ls"
    (fun _ _ => by simp [alwaysFailEnv])
    (fun _ c _ => normalizeWS_push_bang_ne c)
    (fun _ _ => rfl)

/-- C3: at any point of a session where a retry is still allowed
(`fuel + 1` retries left, i.e. `attempts < maxAttempts - 1`), if the
launch fails and the Provider Client's reply, after whitespace
normalization, is character-for-character the failed command, the
controller fails immediately: one launch, exactly one correction request,
no confirmation prompt, no further execution attempt. -/
theorem no_improvement_short_circuit (env : Env) (fuel attempts : Nat) (c e : String)
    (hx : env.exec attempts c = some e)
    (hecho : normalizeWS (env.ai attempts c e) = c) :
    execGo env (fuel + 1) attempts c =
      (⟨1, 1, 0, [e]⟩, Outcome.failed "AI couldn\x27t find a better solution") := by
  simp [execGo, hx, hecho]

theorem no_improvement_short_circuit_witness :
    execGo echoEnv (1 + 1) 0 "ls" =
      (⟨1, 1, 0, ["err"]⟩, Outcome.failed "AI couldn\x27t find a better solution") :=
  no_improvement_short_circuit echoEnv 1 0 "ls" "err" rfl rfl

/-- C4 (amended): when all `maxAttempts` executions fail, the error the
controller surfaces on reaching Failed is the error of the *last* (third)
failed launch — the recorded error list ends with the surfaced error —
while the first launch's error is merely the head of that list. -/
theorem exhausted_surfaces_last_error (env : Env) (cmd : String)
    (h1 : ∀ n c, env.exec n c ≠ none)
    (h2 : ∀ n c e, normalizeWS (env.ai n c e) ≠ c)
    (h3 : ∀ n c, env.confirm n c = true) :
    ∃ e, (executeCommand env cmd).2 = Outcome.failed e ∧
      (executeCommand env cmd).1.errors.getLast? = some e ∧
      (executeCommand env cmd).1.errors.head? = env.exec 0 cmd := by
  obtain ⟨errs, e, hrun, hlast, hhead⟩ := execGo_all_fail env h1 h2 h3 (maxAttempts - 1) 0 cmd
  rw [executeCommand, hrun]
  exact ⟨e, rfl, hlast, hhead⟩

theorem exhausted_surfaces_last_error_witness :
    ∃ e, (executeCommand distinctErrEnv "a").2 = Outcome.failed e ∧
      (executeCommand distinctErrEnv "a").1.errors.getLast? = some e ∧
      (executeCommand distinctErrEnv "a").1.errors.head? = distinctErrEnv.exec 0 "a" :=
  exhausted_surfaces_last_error distinctErrEnv "a"
    (fun _ _ => by simp [distinctErrEnv])
    (fun _ c _ => normalizeWS_push_bang_ne c)
    (fun _ _ => rfl)

/-- C1: `validateCommand`'s blocklist does classify a privileged
recursive delete (`"sudo rm -rf /home"`) as rejected and `"git status"`
as accepted — but no call path ever invokes `validateCommand`: the
review loop of `generateCommand` hands the blocklisted command to the
Executor (the `spawn` call) as soon as the user selects execute, so the
claimed pre-execution rejection never happens. -/
theorem blocklisted_command_reaches_executor :
    validateCommand "sudo rm -rf /home" = false ∧
    validateCommand "git status" = true ∧
    (runGen (fun _ => true) "sudo rm -rf /home" [UserAction.execute]).1
      = ["sudo rm -rf /home"] :=
  ⟨rfl, rfl, rfl⟩

/-- C5: the reply is spliced into the bash and python templates at their
placeholder `"# Script content here"`, but the node template's
placeholder is `"// Script content here"` — the search string
`"# Script content here"` does not occur in it, so `replace` is a no-op:
the node artifact is the unmodified template and the reply never appears
in it. -/
theorem node_script_drops_reply :
    generateScriptArtifact ScriptType.node "console.log(1);" = scriptTemplate ScriptType.node ∧
    containsSubstr (generateScriptArtifact ScriptType.node "console.log(1);")
      "console.log(1);" = false ∧
    containsSubstr (generateScriptArtifact ScriptType.bash "echo hi") "echo hi" = true ∧
    containsSubstr (generateScriptArtifact ScriptType.python "print(1)") "print(1)" = true :=
  ⟨rfl, rfl, rfl, rfl⟩

/-- C6: for every cipher backend satisfying the AES-256-CBC round-trip
contract, every provider, plaintext key and IV, `getCredentials` right
after `saveCredentials` returns exactly the saved key: the store pairs
the fresh IV with the ciphertext and decrypts with that very pair. -/
theorem vault_roundtrip (B : CryptoBackend)
    (hB : ∀ iv t, B.dec (B.enc iv t) iv = some t)
    (iv : String) (fs : VaultFile) (p : Provider) (apiKey : String) :
    getCredentials B (saveCredentials B iv fs p apiKey) p = Except.ok (some apiKey) := by
  simp [getCredentials, saveCredentials, readCredentialsData, hB]

theorem vault_roundtrip_witness :
    getCredentials idBackend
      (saveCredentials idBackend "00ff" VaultFile.absent Provider.anthropic "sk-test")
      Provider.anthropic = Except.ok (some "sk-test") :=
  vault_roundtrip idBackend (fun _ _ => rfl) "00ff" VaultFile.absent Provider.anthropic "sk-test"

/-- C7: `getCredentials` keeps the two failure modes apart — a missing
or unparsable store, or a provider with no record, yields `ok none`
(absent, no error); a present record whose decrypt throws yields a vault
error, never `ok none`. -/
theorem vault_failure_modes (B : CryptoBackend) (p : Provider) :
    getCredentials B VaultFile.absent p = Except.ok none ∧
    getCredentials B VaultFile.corrupt p = Except.ok none ∧
    ∀ d r, d p = some r → B.dec r.encrypted r.iv = none →
      getCredentials B (VaultFile.valid d) p = Except.error "vault decrypt error" := by
  refine ⟨rfl, rfl, ?_⟩
  intro d r hd hdec
  simp [getCredentials, readCredentialsData, hd, hdec]

theorem vault_failure_modes_witness :
    getCredentials failBackend VaultFile.absent Provider.openai = Except.ok none ∧
    getCredentials failBackend (VaultFile.valid storedOpenai) Provider.openai
      = Except.error "vault decrypt error" :=
  ⟨(vault_failure_modes failBackend Provider.openai).1,
   (vault_failure_modes failBackend Provider.openai).2.2 storedOpenai ⟨"aa", "bb"⟩ rfl rfl⟩

/-- The anthropic branch turns the mock stream back into exactly the
fragment list (metadata events contribute nothing). -/
theorem anthropicFragments_mock (frags : List String) :
    anthropicFragments (anthMock frags) = frags := by
  simp only [anthropicFragments, anthMock, List.filterMap_append]
  have core : ∀ l : List String,
      List.filterMap anthPayload
        (l.map fun t => AnthChunk.contentBlockDelta (AnthDelta.textDelta t)) = l := by
    intro l
    induction l with
    | nil => rfl
    | cons f fs ih => simp [List.filterMap_cons, anthPayload, ih]
  simp [core, anthPayload]

/-- The openai branch turns the mock stream back into exactly the
fragment list, provided no fragment is the (falsy) empty string. -/
theorem openaiFragments_mock (frags : List String) (h : ∀ f ∈ frags, f ≠ "") :
    openaiFragments (openaiMock frags) = frags := by
  simp only [openaiFragments, openaiMock, List.filterMap_append]
  have core : ∀ l : List String, (∀ f ∈ l, f ≠ "") →
      List.filterMap openaiPayload
        (l.map fun t =>
          ({ choices := [{ delta := some { content := some t } }] } : OAIChunk)) = l := by
    intro l
    induction l with
    | nil => intro _; rfl
    | cons f fs ih =>
      intro hl
      have hf : f ≠ "" := hl f (List.mem_cons_self f fs)
      have hfs : ∀ g ∈ fs, g ≠ "" := fun g hg => hl g (List.mem_cons_of_mem f hg)
      simp [List.filterMap_cons, openaiPayload, hf, ih hfs]
  simp [core frags h, openaiPayload]

/-- The gemini branch turns the mock stream back into exactly the
fragment list, provided no fragment is empty. -/
theorem geminiFragments_mock (frags : List String) (h : ∀ f ∈ frags, f ≠ "") :
    geminiFragments (geminiMock frags) = frags := by
  simp only [geminiFragments, geminiMock]
  induction frags with
  | nil => rfl
  | cons f fs ih =>
    have hf : f ≠ "" := h f (List.mem_cons_self f fs)
    have hfs : ∀ g ∈ fs, g ≠ "" := fun g hg => h g (List.mem_cons_of_mem f hg)
    simp [List.filterMap_cons, geminiPayload, hf, ih hfs]

/-- C9: for each of the three provider identities, against the fixed
mock transport that emits the reply `frags` as delta events in that
provider's envelope shape, `streamChat` yields exactly the fragment
sequence — its in-order concatenation is the full reply, with no
character dropped or duplicated, while metadata events and empty deltas
contribute nothing. -/
theorem stream_concat_reconstructs (frags : List String) (apiKey model : String)
    (msgs : List Message) (h : ∀ f ∈ frags, f ≠ "") :
    streamChat (mkService "anthropic" apiKey model) (mockTransport frags) msgs
      = Except.ok frags ∧
    streamChat (mkService "openai" apiKey model) (mockTransport frags) msgs
      = Except.ok frags ∧
    streamChat (mkService "gemini" apiKey model) (mockTransport frags) msgs
      = Except.ok frags := by
  refine ⟨?_, ?_, ?_⟩ <;>
    simp [streamChat, mkService, mockTransport, anthropicFragments_mock,
      openaiFragments_mock frags h, geminiFragments_mock frags h]

theorem stream_concat_reconstructs_witness :
    streamChat (mkService "anthropic" "k" "m") (mockTransport ["ls ", "-la"]) sysConvo
      = Except.ok ["ls ", "-la"] ∧
    streamChat (mkService "openai" "k" "m") (mockTransport ["ls ", "-la"]) sysConvo
      = Except.ok ["ls ", "-la"] ∧
    streamChat (mkService "gemini" "k" "m") (mockTransport ["ls ", "-la"]) sysConvo
      = Except.ok ["ls ", "-la"] :=
  stream_concat_reconstructs ["ls ", "-la"] "k" "m" sysConvo (by decide)

/-- C8: the gemini adapter keeps every message — system messages
included — in the sequence sent to the provider: the adapted sequence
has the same length, and at every index the content is preserved as the
single part and the role is the two-role image (`user` stays `user`,
everything else becomes `model`). -/
theorem gemini_adapter_folds_system (msgs : List Message) (i : Nat) (h : i < msgs.length) :
    (adaptGemini msgs).length = msgs.length ∧
    ∃ h2 : i < (adaptGemini msgs).length,
      ((adaptGemini msgs).get ⟨i, h2⟩).parts = [(msgs.get ⟨i, h⟩).content] ∧
      ((adaptGemini msgs).get ⟨i, h2⟩).role =
        (if (msgs.get ⟨i, h⟩).role = Role.user then GRole.user else GRole.model) := by
  have hlen : (adaptGemini msgs).length = msgs.length := by simp [adaptGemini]
  refine ⟨hlen, hlen ▸ h, ?_, ?_⟩ <;>
    simp [adaptGemini, List.get_eq_getElem, List.getElem_map]

theorem gemini_adapter_folds_system_witness :
    (adaptGemini sysConvo).length = sysConvo.length ∧
    ∃ h2 : 0 < (adaptGemini sysConvo).length,
      ((adaptGemini sysConvo).get ⟨0, h2⟩).parts
        = [(sysConvo.get ⟨0, by decide⟩).content] ∧
      ((adaptGemini sysConvo).get ⟨0, h2⟩).role =
        (if (sysConvo.get ⟨0, by decide⟩).role = Role.user then GRole.user else GRole.model) :=
  gemini_adapter_folds_system sysConvo 0 (by decide)

/-- C10: constructing a `ProviderService` with a provider outside the
closed set creates no client, and `streamChat` silently completes with
zero fragments and no error. -/
theorem unknown_provider_silent_empty_stream (p apiKey model : String)
    (tr : Transport) (msgs : List Message)
    (h1 : p ≠ "anthropic") (h2 : p ≠ "openai") (h3 : p ≠ "gemini") :
    (mkService p apiKey model).anthropicClient = none ∧
    (mkService p apiKey model).openaiClient = none ∧
    (mkService p apiKey model).geminiClient = none ∧
    streamChat (mkService p apiKey model) tr msgs = Except.ok ([] : List String) := by
  simp [mkService, streamChat, h1, h2, h3]

theorem unknown_provider_silent_empty_stream_witness :
    (mkService "grok" "k" "m").anthropicClient = none ∧
    (mkService "grok" "k" "m").openaiClient = none ∧
    (mkService "grok" "k" "m").geminiClient = none ∧
    streamChat (mkService "grok" "k" "m") (mockTransport []) sysConvo
      = Except.ok ([] : List String) :=
  unknown_provider_silent_empty_stream "grok" "k" "m" (mockTransport []) sysConvo
    (by decide) (by decide) (by decide)

/-- C4 counterexample: with per-attempt errors "E0", "E1", "E2" (Executor
always failing, corrections always accepted), the session ends Failed
with "E2" — the error of the last attempt — while the first failed
attempt's error was "E0".  The claim "the error reported ... is the error
produced by the first failed execution attempt" is false on this run. -/
theorem exhausted_error_is_not_first_error :
    (executeCommand distinctErrEnv "a").2 = Outcome.failed "E2" ∧
    (executeCommand distinctErrEnv "a").1.errors.head? = some "E0" ∧
    Outcome.failed "E2" ≠ Outcome.failed "E0" := by
  refine ⟨rfl, rfl, by decide⟩

end ShellAI
